import Mathlib

/-!
Shallow embedding of the Node.js file-manager REPL (`src/index.js`).

Strings stand for raw paths and user input; the host filesystem (the
`node:fs` external collaborator) is modelled as an association list from
normalized absolute paths to entries.  Streaming operations are modelled
by their net effect together with an outcome flag that records whether the
awaited promise resolved (`ok`), rejected and was caught by the dispatch
boundary (`failed`), or never settled / raised an unhandled stream error
(`stuck`).
-/

set_option autoImplicit false

namespace FileManager

/-- Whitespace characters matched by the JavaScript regex class. -/
def isJsSpace (c : Char) : Bool :=
  c = ' ' || c = '\t' || c = '\n' || c = '\r' || c = '\x0b' || c = '\x0c'

/-- Split a character list on a separator, JavaScript `String.split` style:
the empty list yields one empty group, and every separator occurrence starts
a new group. -/
def splitOnChar (sep : Char) : List Char → List (List Char)
  | [] => [[]]
  | c :: cs =>
    if c = sep then [] :: splitOnChar sep cs
    else
      match splitOnChar sep cs with
      | [] => [[c]]
      | g :: gs => (c :: g) :: gs

/-- JavaScript `String.prototype.trim` on both ends. -/
def jsTrim (s : String) : String :=
  String.mk (((s.data.dropWhile isJsSpace).reverse.dropWhile isJsSpace).reverse)

/-- `cs` starts with the pattern `ps`. -/
def charsStart : List Char → List Char → Bool
  | _, [] => true
  | [], _ :: _ => false
  | c :: cs, p :: ps => c = p && charsStart cs ps

/-- JavaScript `String.prototype.startsWith`. -/
def startsWithStr (s pat : String) : Bool :=
  charsStart s.data pat.data

/-- `arg.replace(/^"|"$/g, '')`: drop one leading and one trailing
double-quote character. -/
def stripQuotes (s : String) : String :=
  let l :=
    match s.data with
    | '"' :: rest => rest
    | other => other
  let l2 :=
    match l.reverse with
    | '"' :: rest => rest.reverse
    | _ => l
  String.mk l2

/-! ### POSIX path arithmetic (`node:path`) -/

/-- The `/`-separated components of a raw path string. -/
def pathComponents (s : String) : List String :=
  (splitOnChar '/' s.data).map (fun l => String.mk l)

/-- Normalization stack: empty components and `.` are skipped, `..` pops
(the stack is rooted, so `..` at the root stays at the root). -/
def normStack (comps : List String) : List String :=
  comps.foldl
    (fun stack c =>
      if c = "" ∨ c = "." then stack
      else if c = ".." then stack.dropLast
      else stack ++ [c])
    []

/-- Rebuild an absolute path from normalized components. -/
def joinAbs (comps : List String) : String :=
  "/" ++ String.intercalate "/" comps

/-- Normalize an absolute path (`path.resolve` output format: no trailing
slash, no empty/`.`/`..` components). -/
def normalizeAbs (p : String) : String :=
  joinAbs (normStack (pathComponents p))

/-- POSIX `path.isAbsolute`. -/
def isAbsolute (p : String) : Bool :=
  match p.data with
  | '/' :: _ => true
  | _ => false

/-- `path.resolve(base, p)` for an absolute `base`: an absolute `p` passes
through (normalized); a relative `p` is joined onto `base`. -/
def resolve2 (base p : String) : String :=
  if isAbsolute p then normalizeAbs p else normalizeAbs (base ++ "/" ++ p)

/-- POSIX `path.dirname`. -/
def dirname (p : String) : String :=
  let comps := (pathComponents p).filter (fun c => c ≠ "")
  match comps.dropLast with
  | [] => if isAbsolute p then "/" else "."
  | cs => (if isAbsolute p then "/" else "") ++ String.intercalate "/" cs

/-- POSIX `path.basename`. -/
def basename (p : String) : String :=
  match ((pathComponents p).filter (fun c => c ≠ "")).getLast? with
  | some c => c
  | none => ""

/-! ### Filesystem model -/

/-- File contents: raw text, or the Brotli encoding of some contents
(`zlib.createBrotliCompress` is injective and only its own output decodes). -/
inductive Data where
  | str : String → Data
  | brotli : Data → Data
deriving DecidableEq, Repr

/-- A directory entry of the host filesystem. -/
inductive Entry where
  | file : Data → Entry
  | dir : Entry
deriving DecidableEq, Repr

/-- The host filesystem: association list from normalized absolute paths to
entries. -/
abbrev FS := List (String × Entry)

/-- Look up the entry at a path. -/
def fsLookup : FS → String → Option Entry
  | [], _ => none
  | (q, e) :: rest, p => if q = p then some e else fsLookup rest p

/-- Create or replace the entry at a path. -/
def fsSet : FS → String → Entry → FS
  | [], p, e => [(p, e)]
  | (q, e') :: rest, p, e =>
    if q = p then (p, e) :: rest else (q, e') :: fsSet rest p e

/-- Remove the entry at a path. -/
def fsRemove : FS → String → FS
  | [], _ => []
  | (q, e) :: rest, p => if q = p then rest else (q, e) :: fsRemove rest p

/-- Outcome of one dispatched operation: the promise resolved (`ok`), it
rejected and the dispatch `catch` printed `Operation failed` (`failed`),
`Invalid input` was printed (`invalid`), an unhandled stream error escaped /
the promise never settled (`stuck`), or `.exit` ran (`exited`). -/
inductive Res where
  | ok
  | failed
  | invalid
  | stuck
  | exited
deriving DecidableEq, Repr

/-! ### Startup username parsing -/

/-- JavaScript `String.split('=')` as a list of fields. -/
def splitEq (s : String) : List String :=
  (splitOnChar '=' s.data).map (fun l => String.mk l)

/-- `args.find(a => a.startsWith('--username=')).split('=')[1]`, defaulting
to `"Anonymous"`; the inner default is unreachable because a found argument
always contains `=`. -/
def usernameFromArgs (args : List String) : String :=
  match args.find? (fun arg => startsWithStr arg "--username=") with
  | some usernameArg =>
    match splitEq usernameArg with
    | _ :: v :: _ => v
    | _ => ""
  | none => "Anonymous"

/-- The greeting printed at startup. -/
def greeting (username : String) : String :=
  "Welcome to the File Manager, " ++ username ++ "!"

/-- The farewell printed by `exitProgram`. -/
def farewell (username : String) : String :=
  "Thank you for using File Manager, " ++ username ++ ", goodbye!"

/-! ### Tokenizer (`parseInput`, regex `(?:[^\s"]+|"[^"]*")+` global) -/

/-- Longest run of characters that are neither whitespace nor `"`. -/
def plainSpan (cs : List Char) : List Char × List Char :=
  cs.span (fun c => !(isJsSpace c) && c ≠ '"')

/-- Match the alternative `"[^"]*"`: a quoted span including both quotes;
fails when the closing quote is missing. -/
def quotedSpan : List Char → Option (List Char × List Char)
  | '"' :: rest =>
    let r := rest.span (fun c => c ≠ '"')
    match r.2 with
    | '"' :: rest' => some ('"' :: r.1 ++ ['"'], rest')
    | _ => none
  | _ => none

/-- Greedily match `(?:[^\s"]+|"[^"]*")+` at the head: one or more segments,
each a plain run or a quoted span.  Returns the matched characters and the
rest; an empty match means the regex fails at this position. -/
def tokenSegs : Nat → List Char → List Char × List Char
  | 0, cs => ([], cs)
  | fuel + 1, cs =>
    match quotedSpan cs with
    | some (seg, rest) =>
      let r := tokenSegs fuel rest
      (seg ++ r.1, r.2)
    | none =>
      let p := plainSpan cs
      if p.1.isEmpty then ([], cs)
      else
        let r := tokenSegs fuel p.2
        (p.1 ++ r.1, r.2)

/-- All matches of the global regex over the input, scanning left to right
and advancing one character past positions where no token matches. -/
def scanTokens : Nat → List Char → List (List Char)
  | 0, _ => []
  | _ + 1, [] => []
  | fuel + 1, c :: cs =>
    let r := tokenSegs (c :: cs).length (c :: cs)
    if r.1.isEmpty then scanTokens fuel cs
    else r.1 :: scanTokens fuel r.2

/-- `parseInput`: `input.match(regex)` then quote-stripping.  `none` models a
`null` match result, on which the caller's `null.map(...)` throws. -/
def parseInput (input : String) : Option (List String) :=
  let toks := scanTokens input.data.length input.data
  if toks.isEmpty then none
  else some (toks.map (fun t => stripQuotes (String.mk t)))

/-! ### Filesystem operation set (one definition per source function) -/

/-- `goUp`: assign `path.dirname(currentDir)` unless it equals the current
directory (filesystem root). -/
def goUp (cur : String) : String :=
  let parentDir := dirname cur
  if parentDir ≠ cur then parentDir else cur

/-- `changeDirectory`: adopt the resolved path when it exists and is a
directory, otherwise print `Operation failed` and keep the cursor. -/
def changeDirectory (cur : String) (fs : FS) (dir : String) : String × Res :=
  let newPath := resolve2 cur dir
  if fsLookup fs newPath = some Entry.dir then (newPath, Res.ok)
  else (cur, Res.failed)

/-- `listDirectory`: `readdirSync(currentDir)` throws when the current
directory no longer exists. -/
def listDirectory (cur : String) (fs : FS) : Res :=
  if fsLookup fs cur = some Entry.dir then Res.ok else Res.failed

/-- `readFile` (`cat`): the read stream's `error` event is wired to
`reject`, so a missing or non-file source rejects and is caught. -/
def readFile (cur : String) (fs : FS) (filePath : String) : Res :=
  match fsLookup fs (resolve2 cur filePath) with
  | some (Entry.file _) => Res.ok
  | _ => Res.failed

/-- `createFile` (`add`): `fs.writeFileSync(fullPath, '')` — creates the
file, or truncates an existing file to empty; throws only when the parent
directory is missing or the target is a directory. -/
def createFile (cur : String) (fs : FS) (fileName : String) : FS × Res :=
  let fullPath := resolve2 cur fileName
  match fsLookup fs fullPath with
  | some Entry.dir => (fs, Res.failed)
  | some (Entry.file _) => (fsSet fs fullPath (Entry.file (Data.str "")), Res.ok)
  | none =>
    if fsLookup fs (dirname fullPath) = some Entry.dir then
      (fsSet fs fullPath (Entry.file (Data.str "")), Res.ok)
    else (fs, Res.failed)

/-- `createDirectory` (`mkdir`): non-recursive `mkdirSync`; throws when the
target exists or the parent directory is missing. -/
def createDirectory (cur : String) (fs : FS) (dirName : String) : FS × Res :=
  let fullPath := resolve2 cur dirName
  match fsLookup fs fullPath with
  | some _ => (fs, Res.failed)
  | none =>
    if fsLookup fs (dirname fullPath) = some Entry.dir then
      (fsSet fs fullPath Entry.dir, Res.ok)
    else (fs, Res.failed)

/-- `renameFile` (`rn`): the new name is resolved against the old path's
parent directory (so an absolute new name passes through unchanged), then
`renameSync`. -/
def renameFile (cur : String) (fs : FS) (oldPath newName : String) : FS × Res :=
  let oldFullPath := resolve2 cur oldPath
  let newFullPath := resolve2 (dirname oldFullPath) newName
  match fsLookup fs oldFullPath with
  | none => (fs, Res.failed)
  | some e =>
    if fsLookup fs newFullPath = some Entry.dir then (fs, Res.failed)
    else if fsLookup fs (dirname newFullPath) = some Entry.dir then
      (fsSet (fsRemove fs oldFullPath) newFullPath e, Res.ok)
    else (fs, Res.failed)

/-- `copyFile` (`cp`): destination is `resolve(cur, destDir, basename(src))`.
Only the write stream's `error` is wired to `reject`: a failed destination
open rejects with the filesystem untouched, while the write stream truncates
the destination at open time before any data flows, so the read phase
observes the post-truncation filesystem (this matters only when source and
destination coincide).  A read-stream failure (missing or non-file source)
is an unhandled `error` event: the promise never resolves (`stuck`) and the
already-opened destination stays as an empty file. -/
def copyFile (cur : String) (fs : FS) (src destDir : String) : FS × Res :=
  let srcPath := resolve2 cur src
  let destPath := resolve2 (resolve2 cur destDir) (basename src)
  if fsLookup fs destPath = some Entry.dir ∨
      fsLookup fs (dirname destPath) ≠ some Entry.dir then
    (fs, Res.failed)
  else
    let fs1 := fsSet fs destPath (Entry.file (Data.str ""))
    match fsLookup fs srcPath with
    | some (Entry.file _) =>
      match fsLookup fs1 srcPath with
      | some (Entry.file d) => (fsSet fs1 destPath (Entry.file d), Res.ok)
      | _ => (fs1, Res.stuck)
    | _ => (fs1, Res.stuck)

/-- `moveFile` (`mv`): `await copyFile(...)` then `unlinkSync(srcPath)`; the
deletion runs only when the awaited copy resolved. -/
def moveFile (cur : String) (fs : FS) (src destDir : String) : FS × Res :=
  match copyFile cur fs src destDir with
  | (fs1, Res.ok) => (fsRemove fs1 (resolve2 cur src), Res.ok)
  | r => r

/-- `removeFile` (`rm`): `unlinkSync` removes a file; missing targets and
directories throw. -/
def removeFile (cur : String) (fs : FS) (filePath : String) : FS × Res :=
  let fullPath := resolve2 cur filePath
  match fsLookup fs fullPath with
  | some (Entry.file _) => (fsRemove fs fullPath, Res.ok)
  | _ => (fs, Res.failed)

/-- `getOSInfo` (`os`): recognized sub-flags print host information, any
other argument prints `Invalid input`. -/
def getOSInfo (flag : Option String) : Res :=
  match flag with
  | some "--EOL" => Res.ok
  | some "--cpus" => Res.ok
  | some "--homedir" => Res.ok
  | some "--username" => Res.ok
  | some "--architecture" => Res.ok
  | _ => Res.invalid

/-- `calculateHash` (`hash`): the read stream's `error` is wired to
`reject`, so failures are caught. -/
def calculateHash (cur : String) (fs : FS) (filePath : String) : Res :=
  match fsLookup fs (resolve2 cur filePath) with
  | some (Entry.file _) => Res.ok
  | _ => Res.failed

/-- `compressFile`: destination is `resolve(cur, dest)` directly (no
basename of the source is appended); same stream wiring as `copyFile`, with
the Brotli encoder between read and write. -/
def compressFile (cur : String) (fs : FS) (src dest : String) : FS × Res :=
  let srcPath := resolve2 cur src
  let destPath := resolve2 cur dest
  if fsLookup fs destPath = some Entry.dir ∨
      fsLookup fs (dirname destPath) ≠ some Entry.dir then
    (fs, Res.failed)
  else
    let fs1 := fsSet fs destPath (Entry.file (Data.str ""))
    match fsLookup fs srcPath with
    | some (Entry.file _) =>
      match fsLookup fs1 srcPath with
      | some (Entry.file d) => (fsSet fs1 destPath (Entry.file (Data.brotli d)), Res.ok)
      | _ => (fs1, Res.stuck)
    | _ => (fs1, Res.stuck)

/-- `decompressFile`: mirror of `compressFile`; the decoder only accepts
Brotli-encoded input, and a decoder error is an unhandled stream error. -/
def decompressFile (cur : String) (fs : FS) (src dest : String) : FS × Res :=
  let srcPath := resolve2 cur src
  let destPath := resolve2 cur dest
  if fsLookup fs destPath = some Entry.dir ∨
      fsLookup fs (dirname destPath) ≠ some Entry.dir then
    (fs, Res.failed)
  else
    let fs1 := fsSet fs destPath (Entry.file (Data.str ""))
    match fsLookup fs srcPath with
    | some (Entry.file _) =>
      match fsLookup fs1 srcPath with
      | some (Entry.file (Data.brotli d)) => (fsSet fs1 destPath (Entry.file d), Res.ok)
      | _ => (fs1, Res.stuck)
    | _ => (fs1, Res.stuck)

/-! ### Dispatcher and session loop -/

/-- The `switch (command)` inside the `try` block of the line handler.
Every branch except `up` and `cd` returns the incoming cursor; a missing
required argument makes the underlying operation throw (`path.resolve` on
`undefined`), caught as `failed` — except `os`, whose `switch` default
prints `Invalid input`. -/
def dispatch (cur : String) (fs : FS) (command : String) (params : List String) :
    String × FS × Res :=
  match command with
  | "up" => (goUp cur, fs, Res.ok)
  | "cd" =>
    match params.head? with
    | some d => ((changeDirectory cur fs d).1, fs, (changeDirectory cur fs d).2)
    | none => (cur, fs, Res.failed)
  | "ls" => (cur, fs, listDirectory cur fs)
  | "cat" =>
    (cur, fs,
      match params.head? with
      | some p => readFile cur fs p
      | none => Res.failed)
  | "add" =>
    let r :=
      match params.head? with
      | some p => createFile cur fs p
      | none => (fs, Res.failed)
    (cur, r.1, r.2)
  | "mkdir" =>
    let r :=
      match params.head? with
      | some p => createDirectory cur fs p
      | none => (fs, Res.failed)
    (cur, r.1, r.2)
  | "rn" =>
    let r :=
      match params.head?, params[1]? with
      | some a, some b => renameFile cur fs a b
      | _, _ => (fs, Res.failed)
    (cur, r.1, r.2)
  | "cp" =>
    let r :=
      match params.head?, params[1]? with
      | some a, some b => copyFile cur fs a b
      | _, _ => (fs, Res.failed)
    (cur, r.1, r.2)
  | "mv" =>
    let r :=
      match params.head?, params[1]? with
      | some a, some b => moveFile cur fs a b
      | _, _ => (fs, Res.failed)
    (cur, r.1, r.2)
  | "rm" =>
    let r :=
      match params.head? with
      | some p => removeFile cur fs p
      | none => (fs, Res.failed)
    (cur, r.1, r.2)
  | "os" => (cur, fs, getOSInfo params.head?)
  | "hash" =>
    (cur, fs,
      match params.head? with
      | some p => calculateHash cur fs p
      | none => Res.failed)
  | "compress" =>
    let r :=
      match params.head?, params[1]? with
      | some a, some b => compressFile cur fs a b
      | _, _ => (fs, Res.failed)
    (cur, r.1, r.2)
  | "decompress" =>
    let r :=
      match params.head?, params[1]? with
      | some a, some b => decompressFile cur fs a b
      | _, _ => (fs, Res.failed)
    (cur, r.1, r.2)
  | ".exit" => (cur, fs, Res.exited)
  | _ => (cur, fs, Res.invalid)

/-- Observable outcome of one `rl.on('line')` invocation. -/
inductive LineOut where
  | next (cur : String) (fs : FS) (res : Res)
  | exited
  | crashed
deriving DecidableEq, Repr

/-- The `rl.on('line')` handler.  `parseInput` runs before the `try` block:
when the regex match is `null`, the destructuring of `null.map(...)` throws
outside the failure boundary, the async callback's rejection is unhandled,
and the process crashes. -/
def handleLine (cur : String) (fs : FS) (line : String) : LineOut :=
  let input := jsTrim line
  if input = "" then LineOut.next cur fs Res.ok
  else
    match parseInput input with
    | none => LineOut.crashed
    | some tokens =>
      match tokens with
      | [] => LineOut.next cur fs Res.invalid
      | command :: params =>
        let r := dispatch cur fs command params
        if r.2.2 = Res.exited then LineOut.exited
        else LineOut.next r.1 r.2.1 r.2.2

/-! ### Concrete filesystems used by witnesses and counterexamples -/

/-- A home directory containing a subdirectory, a text file, and a
Brotli-encoded file. -/
def demoFS : FS :=
  [("/h", Entry.dir),
   ("/h/sub", Entry.dir),
   ("/h/f.txt", Entry.file (Data.str "x")),
   ("/h/g.br", Entry.file (Data.brotli (Data.str "y")))]

/-! ### Helper lemmas -/

theorem fsLookup_fsSet_self (fs : FS) (p : String) (e : Entry) :
    fsLookup (fsSet fs p e) p = some e := by
  induction fs with
  | nil => simp [fsSet, fsLookup]
  | cons hd tl ih =>
    by_cases h : hd.1 = p
    · simp [fsSet, fsLookup, h]
    · simp [fsSet, fsLookup, h, ih]

theorem fsLookup_fsSet_ne (fs : FS) (p : String) (e : Entry) (q : String)
    (h : q ≠ p) : fsLookup (fsSet fs p e) q = fsLookup fs q := by
  have h' : ¬ p = q := fun hh => h hh.symm
  induction fs with
  | nil => simp [fsSet, fsLookup, h']
  | cons hd tl ih =>
    by_cases h1 : hd.1 = p
    · simp [fsSet, fsLookup, h1, h']
    · simp [fsSet, fsLookup, h1, ih]

theorem splitOnChar_not_mem (sep : Char) (l : List Char) (h : sep ∉ l) :
    splitOnChar sep l = [l] := by
  induction l with
  | nil => rfl
  | cons c cs ih =>
    have hc : ¬ c = sep := fun e => h (e ▸ List.mem_cons_self c cs)
    have := ih (fun hm => h (List.mem_cons_of_mem c hm))
    simp [splitOnChar, hc, this]

theorem splitOnChar_append_sepfree (sep : Char) (a l : List Char)
    (ha : sep ∉ a) (hl : sep ∉ l) :
    splitOnChar sep (a ++ sep :: l) = [a, l] := by
  induction a with
  | nil => simp [splitOnChar, splitOnChar_not_mem sep l hl]
  | cons c cs ih =>
    have hc : ¬ c = sep := fun e => ha (e ▸ List.mem_cons_self c cs)
    have := ih (fun hm => ha (List.mem_cons_of_mem c hm))
    simp [splitOnChar, hc, this]

theorem splitEq_flag (v : String) (h : '=' ∉ v.data) :
    splitEq ("--username=" ++ v) = ["--username", v] := by
  obtain ⟨l⟩ := v
  have ha : '=' ∉ "--username".data := by decide
  have key := splitOnChar_append_sepfree '=' "--username".data l ha h
  show (splitOnChar '=' (("--username=" ++ String.mk l).data)).map (fun t => String.mk t) = _
  rw [show ("--username=" ++ String.mk l).data = "--username".data ++ '=' :: l from rfl, key]
  rfl

theorem copyFile_cases (cur : String) (fs : FS) (src destDir : String) :
    copyFile cur fs src destDir = (fs, Res.failed) ∨
    (copyFile cur fs src destDir).2 = Res.ok ∨
    (copyFile cur fs src destDir).2 = Res.stuck := by
  simp only [copyFile]
  split
  · exact Or.inl rfl
  · split
    · split
      · exact Or.inr (Or.inl rfl)
      · exact Or.inr (Or.inr rfl)
    · exact Or.inr (Or.inr rfl)

theorem copyFile_failed_eq (cur : String) (fs : FS) (src destDir : String)
    (h : (copyFile cur fs src destDir).2 = Res.failed) :
    copyFile cur fs src destDir = (fs, Res.failed) := by
  rcases copyFile_cases cur fs src destDir with he | h2 | h2
  · exact he
  · rw [h] at h2; cases h2
  · rw [h] at h2; cases h2

theorem copyFile_ok_eq (cur : String) (fs : FS) (src destDir : String) (d : Data)
    (hsrc : fsLookup fs (resolve2 cur src) = some (Entry.file d))
    (hdest : fsLookup fs (resolve2 (resolve2 cur destDir) (basename src)) ≠ some Entry.dir)
    (hpar : fsLookup fs (dirname (resolve2 (resolve2 cur destDir) (basename src))) =
      some Entry.dir)
    (hne : resolve2 cur src ≠ resolve2 (resolve2 cur destDir) (basename src)) :
    copyFile cur fs src destDir =
      (fsSet
        (fsSet fs (resolve2 (resolve2 cur destDir) (basename src))
          (Entry.file (Data.str "")))
        (resolve2 (resolve2 cur destDir) (basename src)) (Entry.file d), Res.ok) := by
  simp only [copyFile]
  rw [if_neg (not_or.mpr ⟨hdest, not_not_intro hpar⟩),
    fsLookup_fsSet_ne _ _ _ _ hne, hsrc]

/-! ### Claims -/

/-- Claim C1, counterexample: with `/h/f.txt` holding content `"x"`,
`add f.txt` does not fail — `writeFileSync` succeeds and truncates the
pre-existing file to empty, so neither "the operation fails" nor "the
content is left unchanged" holds. -/
theorem createFile_existing_succeeds_cex :
    resolve2 "/h" "f.txt" = "/h/f.txt" ∧
    fsLookup demoFS "/h/f.txt" = some (Entry.file (Data.str "x")) ∧
    (createFile "/h" demoFS "f.txt").2 = Res.ok ∧
    fsLookup (createFile "/h" demoFS "f.txt").1 "/h/f.txt" =
      some (Entry.file (Data.str "")) := by
  refine ⟨by decide, by decide, by decide, by decide⟩

/-- Claim C1, amended: when a file already exists at the resolved path,
`add` succeeds and truncates it to zero length; in particular running the
create-file operation twice in a row succeeds both times and leaves a
zero-length file. -/
theorem createFile_truncates_existing (cur : String) (fs : FS) (fileName : String)
    (d : Data)
    (h : fsLookup fs (resolve2 cur fileName) = some (Entry.file d)) :
    (createFile cur fs fileName).2 = Res.ok ∧
    fsLookup (createFile cur fs fileName).1 (resolve2 cur fileName) =
      some (Entry.file (Data.str "")) ∧
    (createFile cur (createFile cur fs fileName).1 fileName).2 = Res.ok ∧
    fsLookup (createFile cur (createFile cur fs fileName).1 fileName).1
      (resolve2 cur fileName) = some (Entry.file (Data.str "")) := by
  have e1 : createFile cur fs fileName =
      (fsSet fs (resolve2 cur fileName) (Entry.file (Data.str "")), Res.ok) := by
    simp only [createFile]
    rw [h]
  have h2 : fsLookup (fsSet fs (resolve2 cur fileName) (Entry.file (Data.str "")))
      (resolve2 cur fileName) = some (Entry.file (Data.str "")) :=
    fsLookup_fsSet_self fs (resolve2 cur fileName) (Entry.file (Data.str ""))
  have e2 : createFile cur (fsSet fs (resolve2 cur fileName) (Entry.file (Data.str "")))
      fileName =
      (fsSet (fsSet fs (resolve2 cur fileName) (Entry.file (Data.str "")))
        (resolve2 cur fileName) (Entry.file (Data.str "")), Res.ok) := by
    simp only [createFile]
    rw [h2]
  refine ⟨by rw [e1], by rw [e1]; exact h2, by rw [e1, e2], ?_⟩
  rw [e1]
  simp only
  rw [e2]
  exact fsLookup_fsSet_self _ _ _

theorem createFile_truncates_existing_witness :
    (createFile "/h" demoFS "f.txt").2 = Res.ok ∧
    fsLookup (createFile "/h" demoFS "f.txt").1 (resolve2 "/h" "f.txt") =
      some (Entry.file (Data.str "")) ∧
    (createFile "/h" (createFile "/h" demoFS "f.txt").1 "f.txt").2 = Res.ok ∧
    fsLookup (createFile "/h" (createFile "/h" demoFS "f.txt").1 "f.txt").1
      (resolve2 "/h" "f.txt") = some (Entry.file (Data.str "")) :=
  createFile_truncates_existing "/h" demoFS "f.txt" (Data.str "x") (by decide)

/-- Claim C2: a non-empty line the matcher cannot tokenize (a single
unterminated double quote) makes `parseInput` return the `null`-match
result, and because `parseInput` runs before the `try` block the line
handler crashes instead of treating the line as invalid input. -/
theorem parseInput_unterminated_quote_crashes (cur : String) (fs : FS) :
    parseInput "\"" = none ∧ handleLine cur fs "\"" = LineOut.crashed := by
  constructor
  · rfl
  · rfl

/-- Claim C4: `cd` adopts the path resolved against the current directory
exactly when it exists as a directory; otherwise it emits the generic
failure and leaves the cursor unchanged. -/
theorem cd_sets_cursor_iff_dir (cur : String) (fs : FS) (dir : String) :
    (fsLookup fs (resolve2 cur dir) = some Entry.dir →
      changeDirectory cur fs dir = (resolve2 cur dir, Res.ok)) ∧
    (fsLookup fs (resolve2 cur dir) ≠ some Entry.dir →
      changeDirectory cur fs dir = (cur, Res.failed)) := by
  constructor
  · intro h
    simp only [changeDirectory]
    rw [if_pos h]
  · intro h
    simp only [changeDirectory]
    rw [if_neg h]

theorem cd_sets_cursor_iff_dir_witness :
    changeDirectory "/h" demoFS "sub" = ("/h/sub", Res.ok) ∧
    changeDirectory "/h" demoFS "nope" = ("/h", Res.failed) :=
  ⟨(cd_sets_cursor_iff_dir "/h" demoFS "sub").1 (by decide),
   (cd_sets_cursor_iff_dir "/h" demoFS "nope").2 (by decide)⟩

/-- Claim C5: only the navigation commands `up` and `cd` can move the
cursor; every other dispatched command, whatever its outcome, returns the
incoming current directory. -/
theorem only_nav_commands_move_cursor (cur : String) (fs : FS) (command : String)
    (params : List String) (h1 : command ≠ "up") (h2 : command ≠ "cd") :
    (dispatch cur fs command params).1 = cur := by
  unfold dispatch
  split <;> first
    | rfl
    | (exact absurd rfl h1)
    | (exact absurd rfl h2)

theorem only_nav_commands_move_cursor_witness :
    (dispatch "/h" demoFS "add" ["f.txt"]).1 = "/h" :=
  only_nav_commands_move_cursor "/h" demoFS "add" ["f.txt"] (by decide) (by decide)

/-- Claim C3: `mv` deletes the source only after the awaited copy resolved;
a copy that rejects leaves the filesystem exactly as it was and no deletion
runs, and a copy that never settles also never reaches the deletion. -/
theorem mv_deletes_only_after_copy_ok (cur : String) (fs : FS) (src destDir : String) :
    ((copyFile cur fs src destDir).2 ≠ Res.ok →
      moveFile cur fs src destDir = copyFile cur fs src destDir) ∧
    ((copyFile cur fs src destDir).2 = Res.failed →
      copyFile cur fs src destDir = (fs, Res.failed)) ∧
    ((copyFile cur fs src destDir).2 = Res.ok →
      moveFile cur fs src destDir =
        (fsRemove (copyFile cur fs src destDir).1 (resolve2 cur src), Res.ok)) := by
  refine ⟨?_, copyFile_failed_eq cur fs src destDir, ?_⟩
  · intro h
    unfold moveFile
    rcases hc : copyFile cur fs src destDir with ⟨fs1, r⟩
    rw [hc] at h
    cases r
    · exact absurd rfl h
    · rfl
    · rfl
    · rfl
    · rfl
  · intro h
    unfold moveFile
    rcases hc : copyFile cur fs src destDir with ⟨fs1, r⟩
    rw [hc] at h
    cases r
    · rfl
    · exact Res.noConfusion h
    · exact Res.noConfusion h
    · exact Res.noConfusion h
    · exact Res.noConfusion h

theorem mv_deletes_only_after_copy_ok_witness :
    moveFile "/h" demoFS "f.txt" "nodir" = (demoFS, Res.failed) := by
  have h := (mv_deletes_only_after_copy_ok "/h" demoFS "f.txt" "nodir").1 (by decide)
  rw [h]
  decide

/-- Claim C6, counterexample: `cp f.txt .` resolves the target to the
source path itself; the write stream truncates the file at open, so the
"copy" completes with an empty file rather than the source's bytes. -/
theorem copy_self_truncates_cex :
    resolve2 (resolve2 "/h" ".") (basename "f.txt") = "/h/f.txt" ∧
    resolve2 "/h" "f.txt" = "/h/f.txt" ∧
    fsLookup demoFS "/h/f.txt" = some (Entry.file (Data.str "x")) ∧
    (copyFile "/h" demoFS "f.txt" ".").2 = Res.ok ∧
    fsLookup (copyFile "/h" demoFS "f.txt" ".").1 "/h/f.txt" =
      some (Entry.file (Data.str "")) := by
  refine ⟨by decide, by decide, by decide, by decide, by decide⟩

/-- Claim C6, amended: provided the resolved target
`destDir/basename(src)` differs from the source path (and the destination
directory exists and the target is not a directory), `cp` writes the
source bytes to the target, overwriting whatever file was there, and
running the same `cp` twice succeeds both times with the target holding
the source content. -/
theorem copy_overwrites_and_repeats (cur : String) (fs : FS) (src destDir : String)
    (d : Data)
    (hsrc : fsLookup fs (resolve2 cur src) = some (Entry.file d))
    (hdest : fsLookup fs (resolve2 (resolve2 cur destDir) (basename src)) ≠
      some Entry.dir)
    (hpar : fsLookup fs (dirname (resolve2 (resolve2 cur destDir) (basename src))) =
      some Entry.dir)
    (hne : resolve2 cur src ≠ resolve2 (resolve2 cur destDir) (basename src)) :
    (copyFile cur fs src destDir).2 = Res.ok ∧
    fsLookup (copyFile cur fs src destDir).1
      (resolve2 (resolve2 cur destDir) (basename src)) = some (Entry.file d) ∧
    (copyFile cur (copyFile cur fs src destDir).1 src destDir).2 = Res.ok ∧
    fsLookup (copyFile cur (copyFile cur fs src destDir).1 src destDir).1
      (resolve2 (resolve2 cur destDir) (basename src)) = some (Entry.file d) := by
  have e1 := copyFile_ok_eq cur fs src destDir d hsrc hdest hpar hne
  have hne2 : dirname (resolve2 (resolve2 cur destDir) (basename src)) ≠
      resolve2 (resolve2 cur destDir) (basename src) := fun e => hdest (e ▸ hpar)
  have hsrc' : fsLookup
      (fsSet
        (fsSet fs (resolve2 (resolve2 cur destDir) (basename src))
          (Entry.file (Data.str "")))
        (resolve2 (resolve2 cur destDir) (basename src)) (Entry.file d))
      (resolve2 cur src) = some (Entry.file d) := by
    rw [fsLookup_fsSet_ne _ _ _ _ hne, fsLookup_fsSet_ne _ _ _ _ hne, hsrc]
  have hdest' : fsLookup
      (fsSet
        (fsSet fs (resolve2 (resolve2 cur destDir) (basename src))
          (Entry.file (Data.str "")))
        (resolve2 (resolve2 cur destDir) (basename src)) (Entry.file d))
      (resolve2 (resolve2 cur destDir) (basename src)) ≠ some Entry.dir := by
    simp [fsLookup_fsSet_self]
  have hpar' : fsLookup
      (fsSet
        (fsSet fs (resolve2 (resolve2 cur destDir) (basename src))
          (Entry.file (Data.str "")))
        (resolve2 (resolve2 cur destDir) (basename src)) (Entry.file d))
      (dirname (resolve2 (resolve2 cur destDir) (basename src))) = some Entry.dir := by
    rw [fsLookup_fsSet_ne _ _ _ _ hne2, fsLookup_fsSet_ne _ _ _ _ hne2, hpar]
  have e2 := copyFile_ok_eq cur
    (fsSet
      (fsSet fs (resolve2 (resolve2 cur destDir) (basename src))
        (Entry.file (Data.str "")))
      (resolve2 (resolve2 cur destDir) (basename src)) (Entry.file d))
    src destDir d hsrc' hdest' hpar' hne
  refine ⟨by rw [e1], ?_, ?_, ?_⟩
  · rw [e1]
    exact fsLookup_fsSet_self _ _ _
  · rw [e1]
    simp only
    rw [e2]
  · rw [e1]
    simp only
    rw [e2]
    exact fsLookup_fsSet_self _ _ _

theorem copy_overwrites_and_repeats_witness :
    (copyFile "/h" demoFS "f.txt" "sub").2 = Res.ok ∧
    fsLookup (copyFile "/h" demoFS "f.txt" "sub").1 "/h/sub/f.txt" =
      some (Entry.file (Data.str "x")) ∧
    (copyFile "/h" (copyFile "/h" demoFS "f.txt" "sub").1 "f.txt" "sub").2 = Res.ok ∧
    fsLookup (copyFile "/h" (copyFile "/h" demoFS "f.txt" "sub").1 "f.txt" "sub").1
      "/h/sub/f.txt" = some (Entry.file (Data.str "x")) :=
  copy_overwrites_and_repeats "/h" demoFS "f.txt" "sub" (Data.str "x")
    (by decide) (by decide) (by decide) (by decide)

/-- Claim C7, counterexample: `--username=` yields the empty display name
rather than `Anonymous`, and a name value containing `=` is truncated at
the `=` rather than used verbatim. -/
theorem username_flag_value_cex :
    usernameFromArgs ["--username="] = "" ∧
    usernameFromArgs ["--username=a=b"] = "a" ∧
    ("" : String) ≠ "Anonymous" ∧ ("a" : String) ≠ "a=b" := by
  refine ⟨by decide, by decide, by decide, by decide⟩

/-- Claim C7, amended: when no argument starts with `--username=` the
display name is `Anonymous`; when the first such argument is
`--username=<v>`, the display name is `<v>` truncated at its first `=`
(hence verbatim exactly when `<v>` contains no `=`, and the empty string —
not `Anonymous` — for `--username=`); greeting and farewell embed the
display name verbatim. -/
theorem username_first_eq_field :
    (∀ args : List String,
      args.find? (fun arg => startsWithStr arg "--username=") = none →
      usernameFromArgs args = "Anonymous") ∧
    (∀ (args : List String) (v : String),
      args.find? (fun arg => startsWithStr arg "--username=") =
        some ("--username=" ++ v) →
      '=' ∉ v.data →
      usernameFromArgs args = v) ∧
    (∀ u : String,
      greeting u = "Welcome to the File Manager, " ++ u ++ "!" ∧
      farewell u = "Thank you for using File Manager, " ++ u ++ ", goodbye!") := by
  refine ⟨?_, ?_, fun u => ⟨rfl, rfl⟩⟩
  · intro args hf
    simp only [usernameFromArgs, hf]
  · intro args v hf hv
    simp only [usernameFromArgs, hf, splitEq_flag v hv]

theorem username_first_eq_field_witness :
    usernameFromArgs ["--username=Alice"] = "Alice" ∧
    usernameFromArgs ["--other"] = "Anonymous" :=
  ⟨username_first_eq_field.2.1 ["--username=Alice"] "Alice" (by decide) (by decide),
   username_first_eq_field.1 ["--other"] (by decide)⟩

/-- Claim C8, counterexample: when the destination directory is missing as
well, the write-stream open rejects and no file is created at
`destDir/basename(src)` — the filesystem is untouched. -/
theorem copy_missing_source_no_destdir_cex :
    resolve2 (resolve2 "/h" "d") (basename "s.txt") = "/h/d/s.txt" ∧
    fsLookup demoFS (resolve2 "/h" "s.txt") = none ∧
    copyFile "/h" demoFS "s.txt" "d" = (demoFS, Res.failed) ∧
    moveFile "/h" demoFS "s.txt" "d" = (demoFS, Res.failed) ∧
    fsLookup demoFS "/h/d/s.txt" = none := by
  refine ⟨by decide, by decide, by decide, by decide, by decide⟩

/-- Claim C8, amended: provided the destination directory exists (and the
target is not a directory), a copy or move whose source is missing still
creates (or truncates) a zero-length file at `destDir/basename(src)`,
because the destination write stream opens before any source byte is read;
the operation itself never settles and `mv` never reaches its deletion. -/
theorem copy_missing_source_creates_empty_dest (cur : String) (fs : FS)
    (src destDir : String)
    (hsrc : fsLookup fs (resolve2 cur src) = none)
    (hdest : fsLookup fs (resolve2 (resolve2 cur destDir) (basename src)) ≠
      some Entry.dir)
    (hpar : fsLookup fs (dirname (resolve2 (resolve2 cur destDir) (basename src))) =
      some Entry.dir) :
    fsLookup (copyFile cur fs src destDir).1
      (resolve2 (resolve2 cur destDir) (basename src)) =
      some (Entry.file (Data.str "")) ∧
    (copyFile cur fs src destDir).2 = Res.stuck ∧
    moveFile cur fs src destDir = copyFile cur fs src destDir ∧
    fsLookup (moveFile cur fs src destDir).1
      (resolve2 (resolve2 cur destDir) (basename src)) =
      some (Entry.file (Data.str "")) := by
  have e1 : copyFile cur fs src destDir =
      (fsSet fs (resolve2 (resolve2 cur destDir) (basename src))
        (Entry.file (Data.str "")), Res.stuck) := by
    simp only [copyFile]
    rw [if_neg (not_or.mpr ⟨hdest, not_not_intro hpar⟩), hsrc]
  have e2 : moveFile cur fs src destDir = copyFile cur fs src destDir := by
    unfold moveFile
    rw [e1]
  refine ⟨?_, by rw [e1], e2, ?_⟩
  · rw [e1]
    exact fsLookup_fsSet_self _ _ _
  · rw [e2, e1]
    exact fsLookup_fsSet_self _ _ _

theorem copy_missing_source_creates_empty_dest_witness :
    fsLookup (copyFile "/h" demoFS "s.txt" "sub").1 "/h/sub/s.txt" =
      some (Entry.file (Data.str "")) ∧
    (copyFile "/h" demoFS "s.txt" "sub").2 = Res.stuck ∧
    moveFile "/h" demoFS "s.txt" "sub" = copyFile "/h" demoFS "s.txt" "sub" ∧
    fsLookup (moveFile "/h" demoFS "s.txt" "sub").1 "/h/sub/s.txt" =
      some (Entry.file (Data.str "")) :=
  copy_missing_source_creates_empty_dest "/h" demoFS "s.txt" "sub"
    (by decide) (by decide) (by decide)

/-- Claim C9: an absolute new-name argument to `rn` passes through the
resolution against the old path's parent unchanged, so the entry is
renamed to exactly that absolute path, not confined to the old parent
directory. -/
theorem rename_absolute_newname_escapes_parent (cur : String) (fs : FS)
    (oldPath newName : String) (e : Entry) (habs : isAbsolute newName = true) :
    resolve2 (dirname (resolve2 cur oldPath)) newName = normalizeAbs newName ∧
    (fsLookup fs (resolve2 cur oldPath) = some e →
      fsLookup fs (normalizeAbs newName) ≠ some Entry.dir →
      fsLookup fs (dirname (normalizeAbs newName)) = some Entry.dir →
      renameFile cur fs oldPath newName =
        (fsSet (fsRemove fs (resolve2 cur oldPath)) (normalizeAbs newName) e,
          Res.ok)) := by
  have hres : ∀ b : String, resolve2 b newName = normalizeAbs newName := by
    intro b
    simp [resolve2, habs]
  refine ⟨hres _, ?_⟩
  intro h1 h2 h3
  simp only [renameFile, hres, h1]
  rw [if_neg h2, if_pos h3]

theorem rename_absolute_newname_escapes_parent_witness :
    renameFile "/h" demoFS "f.txt" "/h/sub/z.txt" =
      (fsSet (fsRemove demoFS "/h/f.txt") "/h/sub/z.txt"
        (Entry.file (Data.str "x")), Res.ok) :=
  (rename_absolute_newname_escapes_parent "/h" demoFS "f.txt" "/h/sub/z.txt"
    (Entry.file (Data.str "x")) (by decide)).2 (by decide) (by decide) (by decide)

/-- Claim C10: `compress` and `decompress` resolve their destination
argument directly against the current directory (no basename of the source
is appended, unlike `cp`/`mv`) and overwrite any existing file there. -/
theorem compress_dest_resolved_directly (cur : String) (fs : FS) (src dest : String)
    (d : Data)
    (hdest : fsLookup fs (resolve2 cur dest) ≠ some Entry.dir)
    (hpar : fsLookup fs (dirname (resolve2 cur dest)) = some Entry.dir)
    (hne : resolve2 cur src ≠ resolve2 cur dest) :
    (fsLookup fs (resolve2 cur src) = some (Entry.file d) →
      compressFile cur fs src dest =
        (fsSet (fsSet fs (resolve2 cur dest) (Entry.file (Data.str "")))
          (resolve2 cur dest) (Entry.file (Data.brotli d)), Res.ok)) ∧
    (fsLookup fs (resolve2 cur src) = some (Entry.file (Data.brotli d)) →
      decompressFile cur fs src dest =
        (fsSet (fsSet fs (resolve2 cur dest) (Entry.file (Data.str "")))
          (resolve2 cur dest) (Entry.file d), Res.ok)) := by
  constructor
  · intro hsrc
    simp only [compressFile]
    rw [if_neg (not_or.mpr ⟨hdest, not_not_intro hpar⟩),
      fsLookup_fsSet_ne _ _ _ _ hne, hsrc]
  · intro hsrc
    simp only [decompressFile]
    rw [if_neg (not_or.mpr ⟨hdest, not_not_intro hpar⟩),
      fsLookup_fsSet_ne _ _ _ _ hne, hsrc]

theorem compress_dest_resolved_directly_witness :
    compressFile "/h" demoFS "f.txt" "f.br" =
      (fsSet (fsSet demoFS "/h/f.br" (Entry.file (Data.str "")))
        "/h/f.br" (Entry.file (Data.brotli (Data.str "x"))), Res.ok) ∧
    decompressFile "/h" demoFS "g.br" "out.txt" =
      (fsSet (fsSet demoFS "/h/out.txt" (Entry.file (Data.str "")))
        "/h/out.txt" (Entry.file (Data.str "y")), Res.ok) :=
  ⟨(compress_dest_resolved_directly "/h" demoFS "f.txt" "f.br" (Data.str "x")
      (by decide) (by decide) (by decide)).1 (by decide),
   (compress_dest_resolved_directly "/h" demoFS "g.br" "out.txt" (Data.str "y")
      (by decide) (by decide) (by decide)).2 (by decide)⟩

end FileManager
